import Mathlib

/-!
Shallow embedding of the voyageai Go client: the retry, classification and
request-execution pipeline of client.go together with the request/response
type definitions of the repository.  Pure logic is translated directly; the
HTTP transport is abstracted as a function from the attempt index to the
wire-level outcome of that attempt, and response-body decoding is abstracted
as a function from the body to a decoded value or an error message, so that
the control flow of client.go is reproduced exactly.
-/

namespace Voyageai

/-- Wire-level outcome of one attempt inside `executeRequest`
(client.go:121-152): failure of `json.Marshal`, of `http.NewRequest`, of
`c.do`, of `io.ReadAll`, or an HTTP response with a status code and a body. -/
inductive WireOutcome where
  | marshalErr (msg : String)
  | newRequestErr (msg : String)
  | doErr (msg : String)
  | readErr (msg : String)
  | response (statusCode : Int) (body : String)
deriving DecidableEq

/-- Go `error` values produced by client.go.  `wrapped k m` models
`fmt.Errorf` wrapping (client.go:124,129,134,140,148) of an underlying error
with message `m`; `api` models `*APIError` carrying `StatusCode` and the raw
`Response` body, as constructed at client.go:144; `descriptive` models the
`fmt.Errorf` values produced by `handleAPIError` (client.go:79-87). -/
inductive GoError where
  | wrapped (kind : String) (msg : String)
  | api (statusCode : Int) (response : String)
  | descriptive (msg : String)
deriving DecidableEq

/-- client.go:75-89, `handleAPIError`: classify an `*APIError` by status
code, returning whether the retry loop may continue together with a
descriptive error.  The `detail` interpolated by `%s` is the raw response
body of the `*APIError`. -/
def handleAPIError (statusCode : Int) (response : String) : Bool × GoError :=
  if statusCode = 400 then
    (false, .descriptive ("voyage: bad request, detail: " ++ response))
  else if statusCode = 401 then
    (false, .descriptive ("voyage: unauthorized, detail: " ++ response))
  else if statusCode = 422 then
    (false, .descriptive ("voyage: Malformed Request, detail: " ++ response))
  else if statusCode = 429 then
    (true, .descriptive ("voyage: Rate Limit Reached, detail: " ++ response))
  else
    (true, .descriptive "voyage: Server Error")

/-- client.go:113-119, `classifyError`: `errors.As(err, &apiError)` succeeds
exactly on the `GoError.api` constructor, because the wrapped errors built in
`executeRequest` never wrap an `*APIError`. -/
def classifyError (err : GoError) : Bool × GoError :=
  match err with
  | .api code resp => handleAPIError code resp
  | e => (false, e)

/-- client.go:121-152, `executeRequest`, at a response type `α`: one attempt.
`decode` abstracts `json.Unmarshal` of a success body into the response
value (`Except.error` is an unmarshal failure and carries its message).
Returns the attempt's Go error (`none` = nil) together with the decoded
response value, if one was produced. -/
def executeRequest {α : Type} (decode : String → Except String α)
    (w : WireOutcome) : Option GoError × Option α :=
  match w with
  | .marshalErr m => (some (.wrapped "marshal request" m), none)
  | .newRequestErr m => (some (.wrapped "create request" m), none)
  | .doErr m => (some (.wrapped "execute request" m), none)
  | .readErr m => (some (.wrapped "read response" m), none)
  | .response code body =>
      if 400 ≤ code then (some (.api code body), none)
      else
        match decode body with
        | .error m => (some (.wrapped "unmarshal response" m), none)
        | .ok v => (none, some v)

/-- Result of `handleAPIRequest`: how many times the loop body ran, the
returned Go error (`none` = nil), and the decoded response value when a
success body was decoded. -/
structure CallResult (α : Type) where
  attempts : Nat
  err : Option GoError
  resp : Option α
deriving DecidableEq

/-- The loop of client.go:99-108, with the remaining iteration count as
fuel, the current loop index `i`, and the `lastErr` accumulator.  On a
retryable classification the classified error is remembered and the loop
continues; on a non-retryable classification the original error is returned
at once; on success nil is returned at once. -/
def handleAPIRequestAux {α : Type} (decode : String → Except String α)
    (wire : Nat → WireOutcome) : Nat → Nat → Option GoError → CallResult α
  | 0, i, lastErr => ⟨i, lastErr, none⟩
  | fuel + 1, i, _lastErr =>
      match executeRequest decode (wire i) with
      | (some e, _) =>
          match classifyError e with
          | (true, apiErr) => handleAPIRequestAux decode wire fuel (i + 1) (some apiErr)
          | (false, _) => ⟨i + 1, some e, none⟩
      | (none, v) => ⟨i + 1, none, v⟩

/-- client.go:92-95: the call-local resolution of `maxRetries` inside
`handleAPIRequest`. -/
def resolveMaxRetries (maxRetries : Int) : Int :=
  if maxRetries = 0 then 1 else maxRetries

/-- client.go:91-111, `handleAPIRequest`: the loop
`for i := 0; i < maxRetries; i++` runs at most `max 0 maxRetries` times,
i.e. `(resolveMaxRetries maxRetries).toNat` times, and falls through to
`return lastErr`. -/
def handleAPIRequest {α : Type} (decode : String → Except String α)
    (wire : Nat → WireOutcome) (maxRetries : Int) : CallResult α :=
  handleAPIRequestAux decode wire (resolveMaxRetries maxRetries).toNat 0 none

/-- A decoder for a response type nobody inspects, for concrete runs of the
retry loop. -/
def unitDecode : String → Except String Unit := fun _ => Except.ok ()

/-! JSON values, as produced by Go `encoding/json` marshaling of the request
types of the repository. -/

/-- A JSON value.  Numeric payloads of the request types are integers, so
`num` carries an `Int`. -/
inductive Json where
  | null
  | bool (b : Bool)
  | num (n : Int)
  | str (s : String)
  | arr (elems : List Json)
  | obj (fields : List (String × Json))

/-- Field lookup in a marshaled object, first match wins (Go objects never
repeat a key). -/
def getField : List (String × Json) → String → Option Json
  | [], _ => none
  | (k, v) :: rest, name => if k = name then some v else getField rest name

/-- Whether a marshaled object contains the given key. -/
def jsonHasKey (j : Json) (name : String) : Bool :=
  match j with
  | .obj fields => (getField fields name).isSome
  | _ => false

/-- Decode a JSON array of strings (element-wise, failing on any non-string
element), as `json.Unmarshal` does for a `[]string` field. -/
def strListOfJson : List Json → Option (List String)
  | [] => some []
  | .str s :: rest => (strListOfJson rest).map (s :: ·)
  | _ => none

/-- Unmarshal a `[]string` field: a missing key or `null` leaves the zero
value (nil slice). -/
def reqStrList (fields : List (String × Json)) (name : String) :
    Option (List String) :=
  match getField fields name with
  | none => some []
  | some .null => some []
  | some (.arr es) => strListOfJson es
  | some _ => none

/-- Unmarshal a `string` field: a missing key or `null` leaves the zero
value `""`. -/
def reqStr (fields : List (String × Json)) (name : String) : Option String :=
  match getField fields name with
  | none => some ""
  | some .null => some ""
  | some (.str s) => some s
  | some _ => none

/-- Unmarshal a `*string` field: a missing key or `null` leaves the pointer
nil; a present string sets it. -/
def optStr (fields : List (String × Json)) (name : String) :
    Option (Option String) :=
  match getField fields name with
  | none => some none
  | some .null => some none
  | some (.str s) => some (some s)
  | some _ => none

/-- Unmarshal a `*bool` field. -/
def optBool (fields : List (String × Json)) (name : String) :
    Option (Option Bool) :=
  match getField fields name with
  | none => some none
  | some .null => some none
  | some (.bool b) => some (some b)
  | some _ => none

/-- Unmarshal a `*int` field. -/
def optInt (fields : List (String × Json)) (name : String) :
    Option (Option Int) :=
  match getField fields name with
  | none => some none
  | some .null => some none
  | some (.num n) => some (some n)
  | some _ => none

/-- Marshal an optional (pointer) field under `omitempty`: a nil pointer is
omitted entirely, a non-nil pointer is emitted even when it points at a
falsy value. -/
def optField {α : Type} (name : String) (enc : α → Json) :
    Option α → List (String × Json)
  | none => []
  | some v => [(name, enc v)]

/-! The request and response types of the repository (types file,
`part_002`), with Go pointers as `Option` and `float32` payloads carried as
exact rationals (the client performs no floating-point arithmetic). -/

/-- `EmbeddingRequest` (part_002:47-61). -/
structure EmbeddingRequest where
  Input : List String
  Model : String
  InputType : Option String
  Truncation : Option Bool
  OutputDimension : Option Int
  OutputDType : Option String
  EncodingFormat : Option String
deriving DecidableEq

/-- `EmbeddingRequestOpts` (part_002:64-70). -/
structure EmbeddingRequestOpts where
  InputType : Option String
  Truncation : Option Bool
  OutputDimension : Option Int
  OutputDType : Option String
  EncodingFormat : Option String
deriving DecidableEq

/-- `json.Marshal` of an `EmbeddingRequest`, following the struct tags of
part_002:47-61: `input` and `model` always, the five optional fields under
`omitempty`. -/
def marshalEmbeddingRequest (r : EmbeddingRequest) : Json :=
  .obj ([("input", .arr (r.Input.map Json.str)), ("model", .str r.Model)]
    ++ optField "input_type" Json.str r.InputType
    ++ optField "truncation" Json.bool r.Truncation
    ++ optField "output_dimension" Json.num r.OutputDimension
    ++ optField "output_dtype" Json.str r.OutputDType
    ++ optField "encoding_format" Json.str r.EncodingFormat)

/-- `json.Unmarshal` into an `EmbeddingRequest`. -/
def unmarshalEmbeddingRequest : Json → Option EmbeddingRequest
  | .obj fields => do
      let input ← reqStrList fields "input"
      let model ← reqStr fields "model"
      let inputType ← optStr fields "input_type"
      let truncation ← optBool fields "truncation"
      let outputDimension ← optInt fields "output_dimension"
      let outputDType ← optStr fields "output_dtype"
      let encodingFormat ← optStr fields "encoding_format"
      some ⟨input, model, inputType, truncation, outputDimension,
            outputDType, encodingFormat⟩
  | _ => none

/-- `RerankRequest` (part_002:233-240). -/
structure RerankRequest where
  Query : String
  Documents : List String
  Model : String
  TopK : Option Int
  ReturnDocuments : Option Bool
  Truncation : Option Bool
deriving DecidableEq

/-- `RerankRequestOpts` (part_002:243-250). -/
structure RerankRequestOpts where
  TopK : Option Int
  ReturnDocuments : Option Bool
  Truncation : Option Bool
deriving DecidableEq

/-- `json.Marshal` of a `RerankRequest` (tags of part_002:233-240). -/
def marshalRerankRequest (r : RerankRequest) : Json :=
  .obj ([("query", .str r.Query), ("documents", .arr (r.Documents.map Json.str)),
         ("model", .str r.Model)]
    ++ optField "top_k" Json.num r.TopK
    ++ optField "return_documents" Json.bool r.ReturnDocuments
    ++ optField "truncation" Json.bool r.Truncation)

/-- `json.Unmarshal` into a `RerankRequest`. -/
def unmarshalRerankRequest : Json → Option RerankRequest
  | .obj fields => do
      let query ← reqStr fields "query"
      let documents ← reqStrList fields "documents"
      let model ← reqStr fields "model"
      let topK ← optInt fields "top_k"
      let returnDocuments ← optBool fields "return_documents"
      let truncation ← optBool fields "truncation"
      some ⟨query, documents, model, topK, returnDocuments, truncation⟩
  | _ => none

/-- `MultimodalInput` (part_002:163-173).  The Go field `Type` is spelled
`Type'` because `Type` is reserved in Lean; the three payload fields are the
Go string types `text`, `imageBase64` and `imageURL`. -/
structure MultimodalInput where
  Type' : String
  Text : String
  ImageBase64 : String
  ImageURL : String
deriving DecidableEq

/-- The dynamic type of the `any` argument of `Multimodal` (part_002:178):
a value of one of the three recognized string types, or a value of any other
type. -/
inductive MultimodalArg where
  | text (s : String)
  | imageBase64 (s : String)
  | imageURL (s : String)
  | other
deriving DecidableEq

/-- `Multimodal` (part_002:178-198): the type switch on the argument; any
unrecognized type yields the empty `MultimodalInput`. -/
def Multimodal : MultimodalArg → MultimodalInput
  | .text s => ⟨"text", s, "", ""⟩
  | .imageBase64 s => ⟨"image_base64", "", s, ""⟩
  | .imageURL s => ⟨"image_url", "", "", s⟩
  | .other => ⟨"", "", "", ""⟩

/-- `json.Marshal` of a `MultimodalInput` (tags of part_002:163-173):
`type` has no `omitempty`; the three string payload fields have `omitempty`,
so an empty string is omitted. -/
def marshalMultimodalInput (m : MultimodalInput) : Json :=
  .obj ([("type", .str m.Type')]
    ++ (if m.Text = "" then [] else [("text", .str m.Text)])
    ++ (if m.ImageBase64 = "" then [] else [("image_base64", .str m.ImageBase64)])
    ++ (if m.ImageURL = "" then [] else [("image_url", .str m.ImageURL)]))

/-- `json.Unmarshal` into a `MultimodalInput`: missing keys leave the zero
value `""`. -/
def unmarshalMultimodalInput : Json → Option MultimodalInput
  | .obj fields => do
      let t ← reqStr fields "type"
      let tx ← reqStr fields "text"
      let ib ← reqStr fields "image_base64"
      let iu ← reqStr fields "image_url"
      some ⟨t, tx, ib, iu⟩
  | _ => none

/-- Exactly one of the three variants of a `MultimodalInput` is populated:
the discriminator names a variant and the payload fields of the two other
variants are unset (empty). -/
def oneVariantPopulated (m : MultimodalInput) : Prop :=
  (m.Type' = "text" ∧ m.ImageBase64 = "" ∧ m.ImageURL = "") ∨
  (m.Type' = "image_base64" ∧ m.Text = "" ∧ m.ImageURL = "") ∨
  (m.Type' = "image_url" ∧ m.Text = "" ∧ m.ImageBase64 = "")

instance (m : MultimodalInput) : Decidable (oneVariantPopulated m) := by
  unfold oneVariantPopulated; infer_instance

/-- `MultimodalContent` (part_002:200-202). -/
structure MultimodalContent where
  Content : List MultimodalInput
deriving DecidableEq

/-- `MultimodalRequest` (part_002:209-215), including the misspelled
`OuputEncoding` field of the source. -/
structure MultimodalRequest where
  Inputs : List MultimodalContent
  Model : String
  InputType : Option String
  Truncation : Option Bool
  OuputEncoding : Option String
deriving DecidableEq

/-- `MultimodalRequestOpts` (part_002:218-222). -/
structure MultimodalRequestOpts where
  InputType : Option String
  Truncation : Option Bool
  OuputEncoding : Option String
deriving DecidableEq

/-- `UsageObject` (part_002:80-84). -/
structure UsageObject where
  TotalTokens : Int
  ImagePixels : Option Int
  TextTokens : Option Int
deriving DecidableEq

/-- `EmbeddingObject` (part_002:73-77), `float32` entries as rationals. -/
structure EmbeddingObject where
  Object : String
  Embedding : List Rat
  Index : Int
deriving DecidableEq

/-- `EmbeddingResponse` (part_002:87-92). -/
structure EmbeddingResponse where
  Object : String
  Data : List EmbeddingObject
  Model : String
  Usage : UsageObject
deriving DecidableEq

/-- `RerankObject` (part_002:253-257). -/
structure RerankObject where
  Index : Int
  RelevanceScore : Rat
  Document : Option String
deriving DecidableEq

/-- `RerankResponse` (part_002:260-265). -/
structure RerankResponse where
  Object : String
  Data : List RerankObject
  Model : String
  Usage : UsageObject
deriving DecidableEq

/-- The Go zero value of `UsageObject`. -/
def zeroUsageObject : UsageObject := ⟨0, none, none⟩

/-- The Go zero value of `EmbeddingResponse` (the `var respBody` of the
endpoint methods before anything is decoded into it). -/
def zeroEmbeddingResponse : EmbeddingResponse := ⟨"", [], "", zeroUsageObject⟩

/-- The Go zero value of `RerankResponse`. -/
def zeroRerankResponse : RerankResponse := ⟨"", [], "", zeroUsageObject⟩

/-! The endpoint methods of client.go.  The client state that matters to the
claims is `opts` (`VoyageClientOpts`); the transport and response decoding
are abstracted exactly as in `handleAPIRequest` above. -/

/-- `VoyageClientOpts` (client.go:23-28). -/
structure VoyageClientOpts where
  Key : String
  TimeOut : Int
  MaxRetries : Int
  BaseURL : String
deriving DecidableEq

/-- What an endpoint method returns, together with what it did: the returned
response pointer (`some` = non-nil, pointing at the final `respBody`), the
returned error, the request value it assembled to send, and the
`VoyageClientOpts` object as left behind by the call. -/
structure EndpointCall (ρ χ : Type) where
  resp : Option ρ
  err : Option GoError
  sent : χ
  optsAfter : VoyageClientOpts
deriving DecidableEq

/-- `Embed` (client.go:160-182): assemble the `EmbeddingRequest`, run
`handleAPIRequest`, and return `&respBody` (always non-nil) plus the error.
`opts` here is the shared client configuration; it is not touched. -/
def Embed (copts : VoyageClientOpts) (texts : List String) (model : String)
    (opts : Option EmbeddingRequestOpts)
    (decode : String → Except String EmbeddingResponse)
    (wire : Nat → WireOutcome) : EndpointCall EmbeddingResponse EmbeddingRequest :=
  let reqBody : EmbeddingRequest :=
    match opts with
    | some o => ⟨texts, model, o.InputType, o.Truncation, o.OutputDimension,
                 o.OutputDType, o.EncodingFormat⟩
    | none => ⟨texts, model, none, none, none, none, none⟩
  let r := handleAPIRequest decode wire copts.MaxRetries
  ⟨some (r.resp.getD zeroEmbeddingResponse), r.err, reqBody, copts⟩

/-- `MultimodalEmbed` (client.go:192-216): assemble the request, then — at
client.go:210-212 — overwrite the shared `c.opts.MaxRetries` with 1 when it
is 0, then run `handleAPIRequest` against the (possibly updated) options. -/
def MultimodalEmbed (copts : VoyageClientOpts) (inputs : List MultimodalContent)
    (model : String) (opts : Option MultimodalRequestOpts)
    (decode : String → Except String EmbeddingResponse)
    (wire : Nat → WireOutcome) : EndpointCall EmbeddingResponse MultimodalRequest :=
  let reqBody : MultimodalRequest :=
    match opts with
    | some o => ⟨inputs, model, o.InputType, o.Truncation, o.OuputEncoding⟩
    | none => ⟨inputs, model, none, none, none⟩
  let copts2 := if copts.MaxRetries = 0 then { copts with MaxRetries := 1 } else copts
  let r := handleAPIRequest decode wire copts2.MaxRetries
  ⟨some (r.resp.getD zeroEmbeddingResponse), r.err, reqBody, copts2⟩

/-- `Rerank` (client.go:229-255): assemble the request, then — at
client.go:249-251 — overwrite the shared `c.opts.MaxRetries` with 1 when it
is 0, then run `handleAPIRequest` against the (possibly updated) options. -/
def Rerank (copts : VoyageClientOpts) (query : String) (documents : List String)
    (model : String) (opts : Option RerankRequestOpts)
    (decode : String → Except String RerankResponse)
    (wire : Nat → WireOutcome) : EndpointCall RerankResponse RerankRequest :=
  let reqBody : RerankRequest :=
    match opts with
    | some o => ⟨query, documents, model, o.TopK, o.ReturnDocuments, o.Truncation⟩
    | none => ⟨query, documents, model, none, none, none⟩
  let copts2 := if copts.MaxRetries = 0 then { copts with MaxRetries := 1 } else copts
  let r := handleAPIRequest decode wire copts2.MaxRetries
  ⟨some (r.resp.getD zeroRerankResponse), r.err, reqBody, copts2⟩

/-! Helper lemmas about the retry loop. -/

/-- Unfolding the loop with no fuel left: fall through to `return lastErr`. -/
theorem handleAPIRequestAux_zero {α : Type} (decode : String → Except String α)
    (wire : Nat → WireOutcome) (i : Nat) (lastErr : Option GoError) :
    handleAPIRequestAux decode wire 0 i lastErr = ⟨i, lastErr, none⟩ := rfl

/-- Unfolding one iteration of the loop. -/
theorem handleAPIRequestAux_succ {α : Type} (decode : String → Except String α)
    (wire : Nat → WireOutcome) (fuel i : Nat) (lastErr : Option GoError) :
    handleAPIRequestAux decode wire (fuel + 1) i lastErr =
      match executeRequest decode (wire i) with
      | (some e, _) =>
          match classifyError e with
          | (true, apiErr) => handleAPIRequestAux decode wire fuel (i + 1) (some apiErr)
          | (false, _) => ⟨i + 1, some e, none⟩
      | (none, v) => ⟨i + 1, none, v⟩ := rfl

/-- A nonnegative configured retry count resolves to at least one loop
iteration. -/
theorem resolveMaxRetries_toNat_pos (mr : Int) (h : 0 ≤ mr) :
    ∃ n : Nat, (resolveMaxRetries mr).toNat = n + 1 := by
  unfold resolveMaxRetries
  by_cases h0 : mr = 0
  · subst h0; exact ⟨0, rfl⟩
  · rw [if_neg h0]
    refine ⟨mr.toNat - 1, ?_⟩
    omega

/-- If the very first attempt fails and the failure classifies as
non-retryable, the loop returns that original error after exactly one
attempt, no matter how many attempts remain. -/
theorem firstAttemptFatal {α : Type} (decode : String → Except String α)
    (wire : Nat → WireOutcome) (mr : Int) (e d : GoError) (hmr : 0 ≤ mr)
    (hex : executeRequest decode (wire 0) = (some e, none))
    (hcl : classifyError e = (false, d)) :
    handleAPIRequest decode wire mr = ⟨1, some e, none⟩ := by
  obtain ⟨n, hn⟩ := resolveMaxRetries_toNat_pos mr hmr
  unfold handleAPIRequest
  rw [hn, handleAPIRequestAux_succ, hex]
  simp [hcl]

/-- If every attempt produces a retryable-classified API error, the loop
consumes all its fuel and ends carrying the classified error of the last
attempt. -/
theorem handleAPIRequestAux_all_retry {α : Type} (decode : String → Except String α)
    (wire : Nat → WireOutcome) (code : Nat → Int) (body : Nat → String)
    (cls : Nat → GoError)
    (hw : ∀ i, wire i = WireOutcome.response (code i) (body i))
    (hc : ∀ i, 400 ≤ code i)
    (hr : ∀ i, handleAPIError (code i) (body i) = (true, cls i)) :
    ∀ fuel i lastErr,
      handleAPIRequestAux decode wire (fuel + 1) i lastErr =
        ⟨i + (fuel + 1), some (cls (i + fuel)), none⟩ := by
  intro fuel
  induction fuel with
  | zero =>
      intro i lastErr
      rw [handleAPIRequestAux_succ, hw i]
      simp [executeRequest, hc i, classifyError, hr i, handleAPIRequestAux_zero]
  | succ n ih =>
      intro i lastErr
      rw [handleAPIRequestAux_succ, hw i]
      simp only [executeRequest, if_pos (hc i), classifyError, hr i]
      rw [ih (i + 1) (some (cls i))]
      simp only [show i + 1 + (n + 1) = i + (n + 1 + 1) from by omega,
                 show i + 1 + n = i + (n + 1) from by omega]

/-! The claims. -/

/-- C2: for an APIError with status at least 400, `handleAPIError` marks
exactly the statuses 400, 401 and 422 non-retryable (429 and every other
status at least 400 retryable), and always returns a descriptive
(`fmt.Errorf`-built, hence non-nil) error alongside the flag. -/
theorem handleAPIError_classification (code : Int) (body : String)
    (_h : 400 ≤ code) :
    ((handleAPIError code body).1 = false ↔
      code = 400 ∨ code = 401 ∨ code = 422) ∧
    ∃ m, (handleAPIError code body).2 = GoError.descriptive m := by
  unfold handleAPIError
  by_cases h1 : code = 400
  · simp [h1]
  by_cases h2 : code = 401
  · simp [h1, h2]
  by_cases h3 : code = 422
  · simp [h1, h2, h3]
  by_cases h4 : code = 429
  · simp [h1, h2, h3, h4]
  · simp [h1, h2, h3, h4]

/-- Witness for C2 at status 503. -/
theorem handleAPIError_classification_witness :
    (400 ≤ (503 : Int)) ∧
    (((handleAPIError 503 "b").1 = false ↔
       (503 : Int) = 400 ∨ (503 : Int) = 401 ∨ (503 : Int) = 422) ∧
     ∃ m, (handleAPIError 503 "b").2 = GoError.descriptive m) :=
  ⟨by decide, handleAPIError_classification 503 "b" (by decide)⟩

/-- C1 (amended with a nonnegative configured MaxRetries): when every
attempt yields an API error classified retryable, the loop makes exactly
`(resolveMaxRetries mr).toNat` attempts — the configured MaxRetries, or 1
when it is zero — and returns the classified error of the last attempt. -/
theorem handleAPIRequest_all_retryable_exhausts {α : Type}
    (decode : String → Except String α) (wire : Nat → WireOutcome)
    (code : Nat → Int) (body : Nat → String) (cls : Nat → GoError) (mr : Int)
    (hmr : 0 ≤ mr)
    (hw : ∀ i, wire i = WireOutcome.response (code i) (body i))
    (hc : ∀ i, 400 ≤ code i)
    (hr : ∀ i, handleAPIError (code i) (body i) = (true, cls i)) :
    handleAPIRequest decode wire mr =
      ⟨(resolveMaxRetries mr).toNat,
       some (cls ((resolveMaxRetries mr).toNat - 1)), none⟩ := by
  obtain ⟨n, hn⟩ := resolveMaxRetries_toNat_pos mr hmr
  unfold handleAPIRequest
  rw [hn, handleAPIRequestAux_all_retry decode wire code body cls hw hc hr n 0 none]
  simp

/-- Witness for C1 (amended) at MaxRetries 2 with status 500 everywhere:
two attempts, final error is the last classified server error. -/
theorem handleAPIRequest_all_retryable_exhausts_witness :
    ((0 : Int) ≤ 2) ∧
    handleAPIRequest unitDecode (fun _ => WireOutcome.response 500 "x") 2 =
      ⟨2, some (GoError.descriptive "voyage: Server Error"), none⟩ :=
  ⟨by decide,
   handleAPIRequest_all_retryable_exhausts unitDecode _ (fun _ => 500)
     (fun _ => "x") (fun _ => GoError.descriptive "voyage: Server Error") 2
     (by decide) (fun _ => rfl)
     (fun _ => ((by decide : (400 : Int) ≤ 500) : _)) (fun _ => rfl)⟩

/-- C1 counterexample: with a negative configured MaxRetries the loop body
never runs, so even though every attempt would have failed with status 500,
zero attempts are made and a nil error (success) is returned — neither is
the attempt count the resolved MaxRetries, nor is a failure returned. -/
theorem handleAPIRequest_negative_retries_skips_loop :
    handleAPIRequest unitDecode (fun _ => WireOutcome.response 500 "fail") (-1) =
      ⟨0, none, none⟩ := rfl

/-- C3 (amended with a nonnegative configured MaxRetries): a first attempt
answered with a status classified non-retryable ends the call after exactly
one attempt, immediately returning the failure (the raw API error),
regardless of how large MaxRetries is. -/
theorem handleAPIRequest_nonretryable_single_attempt {α : Type}
    (decode : String → Except String α) (wire : Nat → WireOutcome)
    (mr code : Int) (body : String) (d : GoError) (hmr : 0 ≤ mr)
    (hw : wire 0 = WireOutcome.response code body) (hc : 400 ≤ code)
    (hcl : handleAPIError code body = (false, d)) :
    handleAPIRequest decode wire mr = ⟨1, some (GoError.api code body), none⟩ := by
  refine firstAttemptFatal decode wire mr (GoError.api code body) d hmr ?_ ?_
  · rw [hw]; simp [executeRequest, hc]
  · simpa [classifyError] using hcl

/-- Witness for C3 (amended) at MaxRetries 5 with status 401. -/
theorem handleAPIRequest_nonretryable_single_attempt_witness :
    ((0 : Int) ≤ 5) ∧
    handleAPIRequest unitDecode (fun _ => WireOutcome.response 401 "no") 5 =
      ⟨1, some (GoError.api 401 "no"), none⟩ :=
  ⟨by decide,
   handleAPIRequest_nonretryable_single_attempt unitDecode _ 5 401 "no"
     (GoError.descriptive "voyage: unauthorized, detail: no") (by decide) rfl
     (by decide) (by decide)⟩

/-- C3 counterexample: with a negative configured MaxRetries, a mock
endpoint that would answer 401 is never contacted at all — zero attempts,
not exactly one, and no failure is surfaced. -/
theorem handleAPIRequest_negative_retries_no_attempt :
    handleAPIRequest unitDecode (fun _ => WireOutcome.response 401 "no") (-2) =
      ⟨0, none, none⟩ := rfl

/-- C4 (amended): when the call terminates on a non-retryable API error
(status 400, 401 or 422), the error surfaced to the caller is the raw
`APIError` carrying the status code and the unparsed response body; it is
not the classifier's descriptive error (which itself embeds the raw body as
detail rather than a parsed `detail` field and is discarded on this path). -/
theorem handleAPIRequest_fatal_surfaces_raw_api_error {α : Type}
    (decode : String → Except String α) (wire : Nat → WireOutcome)
    (mr code : Int) (body : String) (hmr : 0 ≤ mr)
    (hw : wire 0 = WireOutcome.response code body)
    (hcode : code = 400 ∨ code = 401 ∨ code = 422) :
    handleAPIRequest decode wire mr = ⟨1, some (GoError.api code body), none⟩ ∧
    ∀ m, (handleAPIRequest decode wire mr).err ≠ some (GoError.descriptive m) := by
  have h : handleAPIRequest decode wire mr =
      ⟨1, some (GoError.api code body), none⟩ := by
    rcases hcode with h1 | h1 | h1 <;> subst h1 <;>
      exact firstAttemptFatal decode wire mr _ _ hmr (by rw [hw]; rfl) rfl
  refine ⟨h, fun m hm => ?_⟩
  rw [h] at hm
  simp at hm

/-- Witness for C4 (amended) at MaxRetries 3 with status 422. -/
theorem handleAPIRequest_fatal_surfaces_raw_api_error_witness :
    ((0 : Int) ≤ 3) ∧
    (handleAPIRequest unitDecode (fun _ => WireOutcome.response 422 "bb") 3 =
       ⟨1, some (GoError.api 422 "bb"), none⟩ ∧
     ∀ m, (handleAPIRequest unitDecode (fun _ => WireOutcome.response 422 "bb") 3).err ≠
       some (GoError.descriptive m)) :=
  ⟨by decide,
   handleAPIRequest_fatal_surfaces_raw_api_error unitDecode _ 3 422 "bb"
     (by decide) rfl (Or.inr (Or.inr rfl))⟩

/-- C4 counterexample: a call ending on status 401 returns the raw
`APIError` with the unparsed body, which is not the classifier's descriptive
error for any message — contradicting the claim that the descriptive error
(with a parsed detail) is what the caller receives. -/
theorem handleAPIRequest_fatal_error_not_descriptive :
    handleAPIRequest unitDecode (fun _ => WireOutcome.response 401 "raw-body") 1 =
      ⟨1, some (GoError.api 401 "raw-body"), none⟩ ∧
    ∀ m, some (GoError.api 401 "raw-body") ≠ some (GoError.descriptive m) :=
  ⟨rfl, fun _ h => GoError.noConfusion (Option.some.inj h)⟩

/-- C5: only classified API errors are eligible for retry — a marshal
failure, a transport failure, a read failure and a decode failure of a
success body are each returned immediately after a single attempt, however
many attempts remain. -/
theorem handleAPIRequest_non_api_errors_fatal {α : Type}
    (decode : String → Except String α) (wire : Nat → WireOutcome)
    (mr : Int) (hmr : 0 ≤ mr) :
    (∀ m, wire 0 = WireOutcome.marshalErr m →
       handleAPIRequest decode wire mr =
         ⟨1, some (GoError.wrapped "marshal request" m), none⟩) ∧
    (∀ m, wire 0 = WireOutcome.doErr m →
       handleAPIRequest decode wire mr =
         ⟨1, some (GoError.wrapped "execute request" m), none⟩) ∧
    (∀ m, wire 0 = WireOutcome.readErr m →
       handleAPIRequest decode wire mr =
         ⟨1, some (GoError.wrapped "read response" m), none⟩) ∧
    (∀ code body m, wire 0 = WireOutcome.response code body → code < 400 →
       decode body = Except.error m →
       handleAPIRequest decode wire mr =
         ⟨1, some (GoError.wrapped "unmarshal response" m), none⟩) := by
  refine ⟨fun m hw => ?_, fun m hw => ?_, fun m hw => ?_,
          fun code body m hw hlt hdec => ?_⟩
  · exact firstAttemptFatal decode wire mr _ _ hmr (by rw [hw]; rfl) rfl
  · exact firstAttemptFatal decode wire mr _ _ hmr (by rw [hw]; rfl) rfl
  · exact firstAttemptFatal decode wire mr _ _ hmr (by rw [hw]; rfl) rfl
  · have hnot : ¬ (400 ≤ code) := not_le.mpr hlt
    exact firstAttemptFatal decode wire mr _ _ hmr
      (by rw [hw]; simp [executeRequest, hnot, hdec]) rfl

/-- Witness for C5: a marshal failure with MaxRetries 3 is returned after
one attempt. -/
theorem handleAPIRequest_non_api_errors_fatal_witness :
    ((0 : Int) ≤ 3) ∧
    handleAPIRequest unitDecode (fun _ => WireOutcome.marshalErr "x") 3 =
      ⟨1, some (GoError.wrapped "marshal request" "x"), none⟩ :=
  ⟨by decide,
   (handleAPIRequest_non_api_errors_fatal unitDecode
      (fun _ => WireOutcome.marshalErr "x") 3 (by decide)).1 "x" rfl⟩

/-- C6 (code bug evidence): with MaxRetries configured 0, MultimodalEmbed
and Rerank overwrite the shared `VoyageClientOpts.MaxRetries` with 1
(client.go:210-212 and 249-251), while Embed leaves the configuration
untouched — so the claim that no endpoint call mutates the shared
configuration is violated by the code. -/
theorem multimodalEmbed_rerank_mutate_opts :
    (MultimodalEmbed ⟨"k", 0, 0, "u"⟩ [] "m" none (fun _ => Except.error "d")
        (fun _ => WireOutcome.response 500 "e")).optsAfter = ⟨"k", 0, 1, "u"⟩ ∧
    (Rerank ⟨"k", 0, 0, "u"⟩ "q" [] "m" none (fun _ => Except.error "d")
        (fun _ => WireOutcome.response 500 "e")).optsAfter = ⟨"k", 0, 1, "u"⟩ ∧
    (Embed ⟨"k", 0, 0, "u"⟩ [] "m" none (fun _ => Except.error "d")
        (fun _ => WireOutcome.response 500 "e")).optsAfter = ⟨"k", 0, 0, "u"⟩ :=
  ⟨rfl, rfl, rfl⟩

/-! Helper lemmas for the serialization claims. -/

/-- Decoding a marshaled string list gives back the list. -/
theorem strListOfJson_map (l : List String) :
    strListOfJson (l.map Json.str) = some l := by
  induction l with
  | nil => rfl
  | cons a t ih => simp [strListOfJson, ih]

/-- Marshal/unmarshal round trip for `EmbeddingRequest`. -/
theorem embeddingRequest_roundtrip (r : EmbeddingRequest) :
    unmarshalEmbeddingRequest (marshalEmbeddingRequest r) = some r := by
  obtain ⟨input, model, it, tr, od, odt, ef⟩ := r
  rcases it with _ | it <;> rcases tr with _ | tr <;> rcases od with _ | od <;>
    rcases odt with _ | odt <;> rcases ef with _ | ef <;>
    simp [marshalEmbeddingRequest, unmarshalEmbeddingRequest, optField,
          reqStrList, reqStr, optStr, optBool, optInt, getField,
          strListOfJson_map]

/-- Marshal/unmarshal round trip for `RerankRequest`. -/
theorem rerankRequest_roundtrip (r : RerankRequest) :
    unmarshalRerankRequest (marshalRerankRequest r) = some r := by
  obtain ⟨query, documents, model, tk, rd, tr⟩ := r
  rcases tk with _ | tk <;> rcases rd with _ | rd <;> rcases tr with _ | tr <;>
    simp [marshalRerankRequest, unmarshalRerankRequest, optField,
          reqStrList, reqStr, optStr, optBool, optInt, getField,
          strListOfJson_map]

/-- Key presence in a marshaled `EmbeddingRequest` matches option-field
presence. -/
theorem embeddingRequest_presence (r : EmbeddingRequest) :
    jsonHasKey (marshalEmbeddingRequest r) "input_type" = r.InputType.isSome ∧
    jsonHasKey (marshalEmbeddingRequest r) "truncation" = r.Truncation.isSome ∧
    jsonHasKey (marshalEmbeddingRequest r) "output_dimension" = r.OutputDimension.isSome ∧
    jsonHasKey (marshalEmbeddingRequest r) "output_dtype" = r.OutputDType.isSome ∧
    jsonHasKey (marshalEmbeddingRequest r) "encoding_format" = r.EncodingFormat.isSome := by
  obtain ⟨input, model, it, tr, od, odt, ef⟩ := r
  rcases it with _ | it <;> rcases tr with _ | tr <;> rcases od with _ | od <;>
    rcases odt with _ | odt <;> rcases ef with _ | ef <;>
    simp [marshalEmbeddingRequest, jsonHasKey, optField, getField]

/-- Key presence in a marshaled `RerankRequest` matches option-field
presence. -/
theorem rerankRequest_presence (r : RerankRequest) :
    jsonHasKey (marshalRerankRequest r) "top_k" = r.TopK.isSome ∧
    jsonHasKey (marshalRerankRequest r) "return_documents" = r.ReturnDocuments.isSome ∧
    jsonHasKey (marshalRerankRequest r) "truncation" = r.Truncation.isSome := by
  obtain ⟨query, documents, model, tk, rd, tr⟩ := r
  rcases tk with _ | tk <;> rcases rd with _ | rd <;> rcases tr with _ | tr <;>
    simp [marshalRerankRequest, jsonHasKey, optField, getField]

/-- C7: an unset optional field is entirely absent from the serialized body,
a set optional field appears even when it carries a falsy value (the key is
present exactly when the pointer is non-nil), and a marshal/unmarshal round
trip reproduces the request — absent stays absent, present-false stays
present-false. -/
theorem request_optional_field_presence_roundtrip
    (er : EmbeddingRequest) (rr : RerankRequest) :
    unmarshalEmbeddingRequest (marshalEmbeddingRequest er) = some er ∧
    unmarshalRerankRequest (marshalRerankRequest rr) = some rr ∧
    jsonHasKey (marshalEmbeddingRequest er) "input_type" = er.InputType.isSome ∧
    jsonHasKey (marshalEmbeddingRequest er) "truncation" = er.Truncation.isSome ∧
    jsonHasKey (marshalEmbeddingRequest er) "output_dimension" = er.OutputDimension.isSome ∧
    jsonHasKey (marshalEmbeddingRequest er) "output_dtype" = er.OutputDType.isSome ∧
    jsonHasKey (marshalEmbeddingRequest er) "encoding_format" = er.EncodingFormat.isSome ∧
    jsonHasKey (marshalRerankRequest rr) "top_k" = rr.TopK.isSome ∧
    jsonHasKey (marshalRerankRequest rr) "return_documents" = rr.ReturnDocuments.isSome ∧
    jsonHasKey (marshalRerankRequest rr) "truncation" = rr.Truncation.isSome := by
  obtain ⟨he1, he2, he3, he4, he5⟩ := embeddingRequest_presence er
  obtain ⟨hr1, hr2, hr3⟩ := rerankRequest_presence rr
  exact ⟨embeddingRequest_roundtrip er, rerankRequest_roundtrip rr,
         he1, he2, he3, he4, he5, hr1, hr2, hr3⟩

/-- C8: marshaling the inline-image variant built by `Multimodal` and
unmarshaling it back yields a structurally equal item, with the type
discriminator `image_base64` and the original data-URL string intact. -/
theorem multimodal_image_base64_roundtrip (s : String) :
    unmarshalMultimodalInput
        (marshalMultimodalInput (Multimodal (MultimodalArg.imageBase64 s))) =
      some (Multimodal (MultimodalArg.imageBase64 s)) ∧
    (Multimodal (MultimodalArg.imageBase64 s)).Type' = "image_base64" ∧
    (Multimodal (MultimodalArg.imageBase64 s)).ImageBase64 = s := by
  refine ⟨?_, rfl, rfl⟩
  by_cases hs : s = ""
  · subst hs; rfl
  · simp [Multimodal, marshalMultimodalInput, unmarshalMultimodalInput,
          reqStr, getField, hs]

/-- C9 (amended): for a value of one of the three recognized types, the
constructed `MultimodalInput` has exactly the named variant populated with
the given payload and the discriminator names it; values of any other type
yield the empty input (see the counterexample). -/
theorem multimodal_recognized_exactly_one_variant (s : String) :
    (Multimodal (MultimodalArg.text s) = ⟨"text", s, "", ""⟩ ∧
      oneVariantPopulated (Multimodal (MultimodalArg.text s))) ∧
    (Multimodal (MultimodalArg.imageBase64 s) = ⟨"image_base64", "", s, ""⟩ ∧
      oneVariantPopulated (Multimodal (MultimodalArg.imageBase64 s))) ∧
    (Multimodal (MultimodalArg.imageURL s) = ⟨"image_url", "", "", s⟩ ∧
      oneVariantPopulated (Multimodal (MultimodalArg.imageURL s))) :=
  ⟨⟨rfl, Or.inl ⟨rfl, rfl, rfl⟩⟩,
   ⟨rfl, Or.inr (Or.inl ⟨rfl, rfl, rfl⟩)⟩,
   ⟨rfl, Or.inr (Or.inr ⟨rfl, rfl, rfl⟩)⟩⟩

/-- C9 counterexample: a value of an unrecognized dynamic type yields the
empty `MultimodalInput`, whose discriminator is empty and which has no
populated variant — so the claim does not hold for every value passed to
the constructor. -/
theorem multimodal_other_value_empty :
    Multimodal MultimodalArg.other = ⟨"", "", "", ""⟩ ∧
    ¬ oneVariantPopulated (Multimodal MultimodalArg.other) :=
  ⟨rfl, by decide⟩

/-- C10: every endpoint call returns a non-nil response pointer (modelled as
`some`), whatever the configuration, the wire behaviour and the returned
error — dereferencing the returned pointer never faults. -/
theorem endpoints_return_nonnil_response (copts : VoyageClientOpts)
    (texts : List String) (emodel : String) (eopts : Option EmbeddingRequestOpts)
    (edecode : String → Except String EmbeddingResponse)
    (inputs : List MultimodalContent) (mmodel : String)
    (mopts : Option MultimodalRequestOpts)
    (mdecode : String → Except String EmbeddingResponse)
    (query : String) (documents : List String) (rmodel : String)
    (ropts : Option RerankRequestOpts)
    (rdecode : String → Except String RerankResponse)
    (wire : Nat → WireOutcome) :
    (Embed copts texts emodel eopts edecode wire).resp.isSome = true ∧
    (MultimodalEmbed copts inputs mmodel mopts mdecode wire).resp.isSome = true ∧
    (Rerank copts query documents rmodel ropts rdecode wire).resp.isSome = true :=
  ⟨rfl, rfl, rfl⟩

end Voyageai
